import Mathlib

/-!
Shallow embedding of the two integration layers in
`src/services/social/index.ts`:

1. the `SocialService` façade: conditional construction of platform
   clients from a configuration aggregate, a broadcast `send`, a
   single-target `sendMessage`, a stub `getCommunityMetrics`, and
   `initialize`;
2. the Express HTTP server `createServer`: route handlers that delegate
   to an external `AgentCoordinationService` and translate outcomes
   into HTTP status codes and JSON bodies.

External collaborators (the Twitter/Discord platform clients and the
coordination service) are modelled as oracles: records of functions
with arbitrary behaviour, quantified over in the theorems.  Effects
(which client calls are performed and with which arguments) are made
observable as explicit event traces returned alongside the outcome.
JavaScript promise semantics are resolved as in the source: in
`send`, the tweet is `await`ed inline before the Discord promise is
created, so on failure `Promise.all` rejects with the tweet's error
(the first already-settled rejection); otherwise with the chat error.
-/

namespace SolanaAgent

/-- Outcome of an asynchronous collaborator call: resolved, or rejected
with an error message (JS `Error` payloads are modelled as strings). -/
abbrev AsyncResult := Except String Unit

/-- `SocialMetrics` interface (`index.ts` lines 11-15).  The TS
`engagement: number` carries only the exact literal `0.75` here, which
is represented exactly as a rational. -/
structure SocialMetrics where
  followers : Nat
  engagement : ℚ
  activity : String
  deriving DecidableEq

/-- The `twitter` sub-configuration of `SocialConfig` (lines 25-41). -/
structure TwitterConfig where
  oauthClientId : String
  oauthClientSecret : String
  apiKey : String
  apiSecret : String
  accessToken : String
  accessSecret : String
  bearerToken : String
  mockMode : Option Bool := none
  maxRetries : Option Nat := none
  retryDelay : Option Nat := none

/-- The `discord` sub-configuration of `SocialConfig` (lines 21-24). -/
structure DiscordConfig where
  token : String
  guildId : String

/-- The `helius` sub-configuration of `SocialConfig` (lines 42-44). -/
structure HeliusConfig where
  apiKey : String

/-- The `redis` sub-configuration of `SocialConfig` (lines 45-49). -/
structure RedisConfig where
  host : Option String := none
  port : Option Nat := none
  password : Option String := none

/-- The `SocialConfig` aggregate (lines 17-50): all platform sub-configurations are
optional; the constructor validates only the helius key. -/
structure SocialConfig where
  twitter : Option TwitterConfig := none
  discord : Option DiscordConfig := none
  helius : Option HeliusConfig := none
  redis : Option RedisConfig := none

/-- JavaScript `String.prototype.toLowerCase()`, character-wise
lowercasing (the platform names involved are ASCII, where this agrees
with the JS Unicode mapping). -/
def toLowerCase (s : String) : String := String.mk (s.data.map Char.toLower)

/-- Observable effect of the façade on its platform clients. -/
inductive SocialEvent where
  /-- Call `twitterService.tweet(content, { replyToTweetId })` -/
  | tweet (content : String) (replyToTweetId : Option String)
  /-- Call `discordService.sendMessage(target, content)` -/
  | discordSend (target : String) (content : String)
  deriving DecidableEq

/-- Oracle for the external `TwitterService` collaborator: behaviour of
`initialize()` and of `tweet(content, { replyToTweetId })`. -/
structure TwitterClient where
  initResult : AsyncResult
  tweet : String → Option String → AsyncResult

/-- Oracle for the external `DiscordService` collaborator: behaviour of
`sendMessage(target, content)`. -/
structure DiscordClient where
  sendMessage : String → String → AsyncResult

/-- State of a successfully constructed `SocialService` (lines 52-57):
the two optional client handles, set once at construction, plus the
helius key handed to the market-data processor. -/
structure SocialService where
  twitterService : Option TwitterClient
  discordService : Option DiscordClient
  heliusApiKey : String

namespace SocialService

/-- The constructor (lines 58-137).  `!config.helius?.apiKey` in JS is
true when `helius` is absent or `apiKey` is the empty string (falsy),
in which case the constructor throws `'Helius API key is required'`
and no object is produced.  Otherwise each platform client is
constructed exactly when its sub-configuration is present; the
external client constructors are oracles `mkTwitter` / `mkDiscord`. -/
def construct (mkTwitter : TwitterConfig → TwitterClient)
    (mkDiscord : DiscordConfig → DiscordClient)
    (config : SocialConfig) : Except String SocialService :=
  match config.helius with
  | none => Except.error "Helius API key is required"
  | some h =>
      if h.apiKey = "" then
        Except.error "Helius API key is required"
      else
        Except.ok
          { twitterService := config.twitter.map mkTwitter
            discordService := config.discord.map mkDiscord
            heliusApiKey := h.apiKey }

/-- Method `initialize()` (lines 139-158): fans out the microblogging client's
own initialization when present; the chat client contributes an
already-resolved placeholder.  The façade state itself is unchanged. -/
def initService (s : SocialService) : AsyncResult :=
  match s.twitterService with
  | some t => t.initResult
  | none => Except.ok ()

/-- Method `getCommunityMetrics()` (lines 160-166): a constant stub. -/
def getCommunityMetrics (_s : SocialService) : SocialMetrics :=
  { followers := 1000, engagement := 0.75, activity := "High" }

/-- Method `send(content)` (lines 168-188).  The tweet is awaited inline with
its failure caught, logged and re-pushed as a rejected promise; the
Discord `sendMessage('System', content)` promise is then created
(i.e. the chat send is attempted) unconditionally when the client is
present; finally `Promise.all` is awaited, rejecting with the tweet's
error when the tweet failed (that rejection is already settled),
otherwise with the chat error if any. -/
def send (s : SocialService) (content : String) :
    List SocialEvent × AsyncResult :=
  let twResult : Option AsyncResult :=
    s.twitterService.map (fun t => t.tweet content none)
  let twEvents : List SocialEvent :=
    match s.twitterService with
    | some _ => [SocialEvent.tweet content none]
    | none => []
  let dcResult : Option AsyncResult :=
    s.discordService.map (fun d => d.sendMessage "System" content)
  let dcEvents : List SocialEvent :=
    match s.discordService with
    | some _ => [SocialEvent.discordSend "System" content]
    | none => []
  let outcome : AsyncResult :=
    match twResult with
    | some (Except.error e) => Except.error e
    | _ =>
        match dcResult with
        | some (Except.error e) => Except.error e
        | _ => Except.ok ()
  (twEvents ++ dcEvents, outcome)

/-- Method `sendMessage(platform, messageId, content)` (lines 190-210):
dispatch on `platform.toLowerCase()`; an unconfigured target platform
is a silent no-op; an unknown platform throws
`` `Unsupported platform: ${platform}` ``.  The surrounding
try/catch logs and rethrows, leaving the outcome unchanged. -/
def sendMessage (s : SocialService) (platform messageId content : String) :
    List SocialEvent × AsyncResult :=
  if toLowerCase platform = "twitter" then
    match s.twitterService with
    | some t =>
        ([SocialEvent.tweet content (some messageId)],
         t.tweet content (some messageId))
    | none => ([], Except.ok ())
  else if toLowerCase platform = "discord" then
    match s.discordService with
    | some d =>
        ([SocialEvent.discordSend messageId content],
         d.sendMessage messageId content)
    | none => ([], Except.ok ())
  else
    ([], Except.error ("Unsupported platform: " ++ platform))

end SocialService

/-! ## HTTP server (`createServer`) -/

/-- JSON values, as marshalled by `express.json()`.  The extra `undef`
constructor models the JavaScript `undefined` produced when
destructuring a missing property from a request body. -/
inductive Json where
  | null
  | undef
  | bool (b : Bool)
  | num (n : Int)
  | str (s : String)
  | arr (elems : List Json)
  | obj (fields : List (String × Json))

/-- First-match property lookup on an object field list
(JS property access order). -/
def getFieldList : List (String × Json) → String → Json
  | [], _ => Json.undef
  | (k', v) :: rest, k => if k' = k then v else getFieldList rest k

/-- JS destructuring `const { k } = body`: the property value when
`body` is an object that has it, `undefined` otherwise. -/
def Json.getField : Json → String → Json
  | Json.obj fields, k => getFieldList fields k
  | _, _ => Json.undef

/-- Oracle for the external `AgentCoordinationService` singleton:
behaviour of the four delegated calls. -/
structure AgentCoordination where
  registerAgent : Json → Except String Json
  assignTask : Json → Json → Except String Json
  updateTaskStatus : String → Json → Json → Except String Unit
  getAgentMetrics : String → Except String Json

/-- Observable call made by a route handler on the coordination
service, with its exact arguments. -/
inductive CoordCall where
  | registerAgent (body : Json)
  | assignTask (taskData : Json) (agentId : Json)
  | updateTaskStatus (taskId : String) (status : Json) (result : Json)
  | getAgentMetrics (agentId : String)

/-- An HTTP response: status code and JSON body. -/
structure HttpResponse where
  status : Nat
  body : Json

/-- Handler for `POST /agents` (`createServer`, lines 237-246): forwards
the request body to `registerAgent`; 201 with the created agent on
success, 500 with the fixed error body on any failure. -/
def postAgents (svc : AgentCoordination) (body : Json) :
    List CoordCall × HttpResponse :=
  ([CoordCall.registerAgent body],
   match svc.registerAgent body with
   | Except.ok agent => { status := 201, body := agent }
   | Except.error _ =>
       { status := 500
         body := Json.obj [("error", Json.str "Failed to register agent")] })

/-- Handler for `PATCH /tasks/:taskId/status` (lines 258-269): destructures
`status` and `result` from the body, calls
`updateTaskStatus(taskId, status, result)`; 200 with the fixed
confirmation message on success, 500 with the fixed error body on
failure. -/
def patchTaskStatus (svc : AgentCoordination) (taskId : String)
    (body : Json) : List CoordCall × HttpResponse :=
  let status := body.getField "status"
  let result := body.getField "result"
  ([CoordCall.updateTaskStatus taskId status result],
   match svc.updateTaskStatus taskId status result with
   | Except.ok _ =>
       { status := 200
         body := Json.obj [("message", Json.str "Task status updated")] }
   | Except.error _ =>
       { status := 500
         body := Json.obj [("error", Json.str "Failed to update task status")] })

/-- Handler for `GET /health` (lines 233-235). -/
def getHealth : HttpResponse :=
  { status := 200, body := Json.obj [("status", Json.str "ok")] }

/-! ## Concrete fixtures for witnesses and counterexamples -/

/-- A twitter client whose calls all succeed. -/
def twClientOk : TwitterClient :=
  { initResult := Except.ok (), tweet := fun _ _ => Except.ok () }

/-- A twitter client whose tweets all fail. -/
def twClientFail : TwitterClient :=
  { initResult := Except.ok (), tweet := fun _ _ => Except.error "tweet failed" }

/-- A discord client whose sends all succeed. -/
def dcClientOk : DiscordClient :=
  { sendMessage := fun _ _ => Except.ok () }

/-- A discord client whose sends all fail. -/
def dcClientFail : DiscordClient :=
  { sendMessage := fun _ _ => Except.error "discord failed" }

/-- A client constructor oracle for twitter producing `twClientOk`. -/
def mkTwitterOk : TwitterConfig → TwitterClient := fun _ => twClientOk

/-- A client constructor oracle for discord producing `dcClientOk`. -/
def mkDiscordOk : DiscordConfig → DiscordClient := fun _ => dcClientOk

/-- A coordination service whose calls all succeed (registration echoes
the body back as the created record). -/
def coordOk : AgentCoordination :=
  { registerAgent := fun body => Except.ok body
    assignTask := fun taskData _ => Except.ok taskData
    updateTaskStatus := fun _ _ _ => Except.ok ()
    getAgentMetrics := fun _ => Except.ok (Json.obj []) }

/-- A coordination service whose calls all fail. -/
def coordFail : AgentCoordination :=
  { registerAgent := fun _ => Except.error "db down"
    assignTask := fun _ _ => Except.error "db down"
    updateTaskStatus := fun _ _ _ => Except.error "db down"
    getAgentMetrics := fun _ => Except.error "db down" }

/-- A façade with neither platform client configured. -/
def svcNoClients : SocialService :=
  { twitterService := none, discordService := none, heliusApiKey := "hk" }

/-- A façade whose tweets succeed and whose discord sends fail. -/
def svcOkFail : SocialService :=
  { twitterService := some twClientOk, discordService := some dcClientFail
    heliusApiKey := "hk" }

/-- A façade whose tweets fail and whose discord sends succeed. -/
def svcFailOk : SocialService :=
  { twitterService := some twClientFail, discordService := some dcClientOk
    heliusApiKey := "hk" }

/-! ## Theorems about the claims -/

/-- C1, counterexample: in the configuration whose helius
sub-configuration carries the empty-string API key, the key is present
(the sub-configuration is `some`), yet construction still throws
`Helius API key is required` — the constructor checks JS falsiness
(`!config.helius?.apiKey`), not mere absence, so the claim's
"key present implies no error" direction fails. -/
theorem construct_presentKey_throws_cex :
    ({ helius := some { apiKey := "" } } : SocialConfig).helius.isSome = true ∧
    SocialService.construct mkTwitterOk mkDiscordOk
        { helius := some { apiKey := "" } }
      = Except.error "Helius API key is required" :=
  ⟨rfl, rfl⟩

/-- C1 (amended): construction throws `Helius API key is required`
exactly when the helius sub-configuration is absent or its key is the
empty string, regardless of the other sub-configurations; when the key
is present and non-empty, construction returns an object and does not
throw. -/
theorem construct_helius_gate (mkT : TwitterConfig → TwitterClient)
    (mkD : DiscordConfig → DiscordClient) (cfg : SocialConfig) :
    (cfg.helius = none →
       SocialService.construct mkT mkD cfg
         = Except.error "Helius API key is required") ∧
    (∀ hc, cfg.helius = some hc → hc.apiKey = "" →
       SocialService.construct mkT mkD cfg
         = Except.error "Helius API key is required") ∧
    (∀ hc, cfg.helius = some hc → hc.apiKey ≠ "" →
       ∃ s, SocialService.construct mkT mkD cfg = Except.ok s) := by
  refine ⟨?_, ?_, ?_⟩
  · intro hnone
    simp [SocialService.construct, hnone]
  · intro hc hsome hkey
    simp [SocialService.construct, hsome, hkey]
  · intro hc hsome hkey
    refine ⟨{ twitterService := cfg.twitter.map mkT
              discordService := cfg.discord.map mkD
              heliusApiKey := hc.apiKey }, ?_⟩
    simp [SocialService.construct, hsome, hkey]

/-- Witness for `construct_helius_gate`: an absent key fails, a
present non-empty key constructs. -/
theorem construct_helius_gate_witness :
    SocialService.construct mkTwitterOk mkDiscordOk { helius := none }
      = Except.error "Helius API key is required" ∧
    ∃ s, SocialService.construct mkTwitterOk mkDiscordOk
        { helius := some { apiKey := "hk" } } = Except.ok s :=
  ⟨(construct_helius_gate mkTwitterOk mkDiscordOk _).1 rfl,
   (construct_helius_gate mkTwitterOk mkDiscordOk
      { helius := some { apiKey := "hk" } }).2.2
     { apiKey := "hk" } rfl (by decide)⟩

/-- C2: `getCommunityMetrics` succeeds and returns exactly
`{followers := 1000, engagement := 0.75, activity := "High"}` in every
façade state (the stub reads no state at all, so this holds before and
after initialization alike). -/
theorem getCommunityMetrics_const (s : SocialService) :
    s.getCommunityMetrics
      = { followers := 1000, engagement := 0.75, activity := "High" } := rfl

/-- C3: `sendMessage` dispatches by case-insensitive platform name —
any platform string lowercasing to `twitter` (resp. `discord`) behaves
exactly like the lowercase name, and any platform string lowercasing
to neither fails with an unsupported-platform error that names the
offending value verbatim. -/
theorem sendMessage_dispatch (s : SocialService) (p messageId content : String) :
    (toLowerCase p = "twitter" →
       s.sendMessage p messageId content
         = s.sendMessage "twitter" messageId content) ∧
    (toLowerCase p = "discord" →
       s.sendMessage p messageId content
         = s.sendMessage "discord" messageId content) ∧
    (toLowerCase p ≠ "twitter" → toLowerCase p ≠ "discord" →
       s.sendMessage p messageId content
         = ([], Except.error ("Unsupported platform: " ++ p))) := by
  have htw : toLowerCase "twitter" = "twitter" := by decide
  have hdc : toLowerCase "discord" = "discord" := by decide
  have hne : ("discord" : String) ≠ "twitter" := by decide
  refine ⟨?_, ?_, ?_⟩
  · intro hp
    simp [SocialService.sendMessage, hp, htw]
  · intro hp
    simp [SocialService.sendMessage, hp, hdc, hne]
  · intro hp1 hp2
    simp [SocialService.sendMessage, hp1, hp2]

/-- Witness for `sendMessage_dispatch`: `'TWITTER'` behaves like
`'twitter'`, and `'Mastodon'` fails naming `'Mastodon'`. -/
theorem sendMessage_dispatch_witness :
    svcNoClients.sendMessage "TWITTER" "1" "gm"
        = svcNoClients.sendMessage "twitter" "1" "gm" ∧
    svcNoClients.sendMessage "Mastodon" "1" "gm"
        = ([], Except.error ("Unsupported platform: " ++ "Mastodon")) :=
  ⟨(sendMessage_dispatch svcNoClients "TWITTER" "1" "gm").1 (by decide),
   (sendMessage_dispatch svcNoClients "Mastodon" "1" "gm").2.2
     (by decide) (by decide)⟩

/-- C4: a configuration with only the market-data key present (no
twitter, no discord) constructs a façade with no microblogging and no
chat client, and `send` on it is a trivially succeeding no-op for
every content string. -/
theorem construct_marketOnly_noop_send (mkT : TwitterConfig → TwitterClient)
    (mkD : DiscordConfig → DiscordClient) (cfg : SocialConfig)
    (hc : HeliusConfig) (h1 : cfg.twitter = none) (h2 : cfg.discord = none)
    (h3 : cfg.helius = some hc) (h4 : hc.apiKey ≠ "") :
    ∃ s, SocialService.construct mkT mkD cfg = Except.ok s ∧
      s.twitterService = none ∧ s.discordService = none ∧
      ∀ content, s.send content = ([], Except.ok ()) := by
  refine ⟨{ twitterService := none, discordService := none
            heliusApiKey := hc.apiKey }, ?_, rfl, rfl, ?_⟩
  · simp [SocialService.construct, h1, h2, h3, h4]
  · intro content
    rfl

/-- Witness for `construct_marketOnly_noop_send` at a concrete
market-data-only configuration. -/
theorem construct_marketOnly_noop_send_witness :
    ∃ s, SocialService.construct mkTwitterOk mkDiscordOk
          { helius := some { apiKey := "hk" } } = Except.ok s ∧
      s.twitterService = none ∧ s.discordService = none ∧
      ∀ content, s.send content = ([], Except.ok ()) :=
  construct_marketOnly_noop_send mkTwitterOk mkDiscordOk
    { helius := some { apiKey := "hk" } } { apiKey := "hk" }
    rfl rfl rfl (by decide)

/-- C5: with both platforms configured, when the tweet succeeds and
the discord send fails, `send` fails overall with the chat error, and
the trace shows the tweet was attempted and completed before the
failure is reported. -/
theorem send_chatFail_tweetCompletes (s : SocialService) (t : TwitterClient)
    (d : DiscordClient) (content e : String)
    (ht : s.twitterService = some t) (hd : s.discordService = some d)
    (htw : t.tweet content none = Except.ok ())
    (hdc : d.sendMessage "System" content = Except.error e) :
    s.send content
      = ([SocialEvent.tweet content none,
          SocialEvent.discordSend "System" content], Except.error e) := by
  simp [SocialService.send, ht, hd, htw, hdc]

/-- Witness for `send_chatFail_tweetCompletes` at concrete clients. -/
theorem send_chatFail_tweetCompletes_witness :
    svcOkFail.send "gm"
      = ([SocialEvent.tweet "gm" none, SocialEvent.discordSend "System" "gm"],
         Except.error "discord failed") :=
  send_chatFail_tweetCompletes svcOkFail twClientOk dcClientFail
    "gm" "discord failed" rfl rfl rfl rfl

/-- C6: a tweet failure is caught locally and recorded as a rejected
fan-out entry — the discord send is still attempted (it appears in the
trace whenever the chat client is configured) — yet the awaited join
makes every tweet failure the overall failure of `send`. -/
theorem send_tweetFail_surfaces (s : SocialService) (t : TwitterClient)
    (content e : String) (ht : s.twitterService = some t)
    (htw : t.tweet content none = Except.error e) :
    (s.send content).2 = Except.error e ∧
    (∀ d, s.discordService = some d →
       (s.send content).1
         = [SocialEvent.tweet content none,
            SocialEvent.discordSend "System" content]) := by
  constructor
  · simp [SocialService.send, ht, htw]
  · intro d hd
    simp [SocialService.send, ht, hd]

/-- Witness for `send_tweetFail_surfaces` at concrete clients. -/
theorem send_tweetFail_surfaces_witness :
    (svcFailOk.send "gm").2 = Except.error "tweet failed" ∧
    (svcFailOk.send "gm").1
      = [SocialEvent.tweet "gm" none, SocialEvent.discordSend "System" "gm"] :=
  ⟨(send_tweetFail_surfaces svcFailOk twClientFail "gm" "tweet failed"
      rfl rfl).1,
   (send_tweetFail_surfaces svcFailOk twClientFail "gm" "tweet failed"
      rfl rfl).2 dcClientOk rfl⟩

/-- C7: a supported platform name (any casing of `twitter` or
`discord`) whose client is not configured makes `sendMessage` a silent
no-op success, for every message id and content. -/
theorem sendMessage_unconfigured_noop (s : SocialService)
    (p messageId content : String)
    (h : (toLowerCase p = "twitter" ∧ s.twitterService = none) ∨
         (toLowerCase p = "discord" ∧ s.discordService = none)) :
    s.sendMessage p messageId content = ([], Except.ok ()) := by
  have hne : ("discord" : String) ≠ "twitter" := by decide
  rcases h with ⟨hp, hn⟩ | ⟨hp, hn⟩
  · simp [SocialService.sendMessage, hp, hn]
  · simp [SocialService.sendMessage, hp, hn, hne]

/-- Witness for `sendMessage_unconfigured_noop`: `'Discord'` with no
chat client configured. -/
theorem sendMessage_unconfigured_noop_witness :
    svcNoClients.sendMessage "Discord" "chan" "gm" = ([], Except.ok ()) :=
  sendMessage_unconfigured_noop svcNoClients "Discord" "chan" "gm"
    (Or.inr ⟨by decide, rfl⟩)

/-- C8: the PATCH `/tasks/:taskId/status` handler calls
`updateTaskStatus` with exactly `(taskId, status, result)` as
destructured from the body; 200 with the fixed confirmation message on
success, 500 with the fixed error body on failure. -/
theorem patchTaskStatus_contract (svc : AgentCoordination) (taskId : String)
    (status result : Json) :
    (patchTaskStatus svc taskId
        (Json.obj [("status", status), ("result", result)])).1
      = [CoordCall.updateTaskStatus taskId status result] ∧
    (svc.updateTaskStatus taskId status result = Except.ok () →
       (patchTaskStatus svc taskId
           (Json.obj [("status", status), ("result", result)])).2
         = { status := 200
             body := Json.obj [("message", Json.str "Task status updated")] }) ∧
    (∀ e, svc.updateTaskStatus taskId status result = Except.error e →
       (patchTaskStatus svc taskId
           (Json.obj [("status", status), ("result", result)])).2
         = { status := 500
             body := Json.obj
               [("error", Json.str "Failed to update task status")] }) := by
  refine ⟨rfl, ?_, ?_⟩
  · intro hok
    simp [patchTaskStatus, Json.getField, getFieldList, hok]
  · intro e herr
    simp [patchTaskStatus, Json.getField, getFieldList, herr]

/-- Witness for `patchTaskStatus_contract` on succeeding and failing
coordination services. -/
theorem patchTaskStatus_contract_witness :
    (patchTaskStatus coordOk "abc"
        (Json.obj [("status", Json.str "done"), ("result", Json.obj [])])).2
      = { status := 200
          body := Json.obj [("message", Json.str "Task status updated")] } ∧
    (patchTaskStatus coordFail "abc"
        (Json.obj [("status", Json.str "done"), ("result", Json.obj [])])).2
      = { status := 500
          body := Json.obj
            [("error", Json.str "Failed to update task status")] } :=
  ⟨(patchTaskStatus_contract coordOk "abc" (Json.str "done")
      (Json.obj [])).2.1 rfl,
   (patchTaskStatus_contract coordFail "abc" (Json.str "done")
      (Json.obj [])).2.2 "db down" rfl⟩

/-- C9: the POST `/agents` handler forwards the request body to
`registerAgent`; 201 with the created-agent JSON on success, and on
any failure 500 with exactly the fixed body
`{"error": "Failed to register agent"}`, independent of the error. -/
theorem postAgents_contract (svc : AgentCoordination) (body : Json) :
    (postAgents svc body).1 = [CoordCall.registerAgent body] ∧
    (∀ agent, svc.registerAgent body = Except.ok agent →
       (postAgents svc body).2 = { status := 201, body := agent }) ∧
    (∀ e, svc.registerAgent body = Except.error e →
       (postAgents svc body).2
         = { status := 500
             body := Json.obj
               [("error", Json.str "Failed to register agent")] }) := by
  refine ⟨rfl, ?_, ?_⟩
  · intro agent hok
    simp [postAgents, hok]
  · intro e herr
    simp [postAgents, herr]

/-- Witness for `postAgents_contract` on succeeding and failing
coordination services. -/
theorem postAgents_contract_witness :
    (postAgents coordOk (Json.obj [("name", Json.str "a1")])).2
      = { status := 201, body := Json.obj [("name", Json.str "a1")] } ∧
    (postAgents coordFail (Json.obj [("name", Json.str "a1")])).2
      = { status := 500
          body := Json.obj [("error", Json.str "Failed to register agent")] } :=
  ⟨(postAgents_contract coordOk (Json.obj [("name", Json.str "a1")])).2.1
      _ rfl,
   (postAgents_contract coordFail (Json.obj [("name", Json.str "a1")])).2.2
      "db down" rfl⟩

/-- C10: whenever a chat client is configured, the broadcast `send`
invokes its `sendMessage` with first argument `'System'` and second
argument the broadcast content — the trace contains that call, and
every chat call in the trace has exactly that fixed target and
content. -/
theorem send_discord_fixed_target (s : SocialService) (d : DiscordClient)
    (content : String) (hd : s.discordService = some d) :
    SocialEvent.discordSend "System" content ∈ (s.send content).1 ∧
    (∀ tgt c, SocialEvent.discordSend tgt c ∈ (s.send content).1 →
       tgt = "System" ∧ c = content) := by
  constructor
  · cases htw : s.twitterService <;> simp [SocialService.send, hd, htw]
  · intro tgt c hmem
    cases htw : s.twitterService
    · simpa [SocialService.send, hd, htw] using hmem
    · simpa [SocialService.send, hd, htw] using hmem

/-- Witness for `send_discord_fixed_target` at a concrete façade. -/
theorem send_discord_fixed_target_witness :
    SocialEvent.discordSend "System" "gm" ∈ (svcOkFail.send "gm").1 ∧
    ("System" : String) = "System" ∧ ("gm" : String) = "gm" :=
  ⟨(send_discord_fixed_target svcOkFail dcClientFail "gm" rfl).1,
   (send_discord_fixed_target svcOkFail dcClientFail "gm" rfl).2 "System" "gm"
     (send_discord_fixed_target svcOkFail dcClientFail "gm" rfl).1⟩

end SolanaAgent
